import Mathlib

/-!
Verification of the appointment conflict-detection and slot-allocation core of
the Hospital-Management-System repository.

The definitions below are a shallow embedding of the JavaScript model layer
(`src/server.js`), the HTTP route handlers (`src/routes/index.js`) and the
PostgreSQL schema objects (`src/database/hospital_appointment_pg.sql`).

Modelling conventions:
* a time of day is its number of minutes from midnight (`TIME` values at
  minute precision, e.g. `09:00` is `540`);
* a calendar date `YYYY-MM-DD` is encoded as the natural number
  `y * 10000 + m * 100 + d`; this encoding is strictly monotone in the
  calendar order of well-formed dates, which is all the code relies on;
* a timestamp (`appointment_date + appointment_time` compared against
  `NOW()`) is `date * 1440 + time`, again order-faithful because a time of
  day is below 1440;
* SQL result sets are Lean lists; `COUNT(*)` with a `WHERE` clause is
  `List.countP`; an `EXISTS`-style `.some(...)` is `List.any`;
* `id` is a `SERIAL PRIMARY KEY`, so where a proof needs it the distinctness
  of ids in a table is an explicit hypothesis.
-/

/-- The `appointment_status` enum of the schema. -/
inductive Status where
  | scheduled
  | checked_in
  | completed
  | cancelled
deriving DecidableEq, Repr

/-- A row of the `appointments` table. -/
structure Appt where
  id : Nat
  patientId : Nat
  doctorId : Nat
  date : Nat
  time : Nat
  duration : Nat
  status : Status
  notes : String
deriving DecidableEq, Repr

/-- The strict half-open interval overlap test used by the schema's
`trg_appt_no_overlap_check` trigger, by `check_doctor_overlap`, and by the
conflict-detail query of `POST /appointments`:
`(a_end > b_start) AND (b_end > a_start)` for intervals
`[s1, s1 + d1)` and `[s2, s2 + d2)`. -/
def overlapsStrict (s1 d1 s2 d2 : Nat) : Bool :=
  decide (s1 < s2 + d2) && decide (s2 < s1 + d1)

/-- The per-row condition of `Appointment.checkOverlap` (src/server.js) and of
the SQL function `check_appointment_conflict`, verbatim:
`(appointment_time <= c AND appointment_time + duration > c) OR
 (appointment_time < c + cd AND appointment_time + duration >= c + cd)`
where `c`/`cd` are the candidate's start and duration. -/
def rowConflict (aTime aDur cTime cDur : Nat) : Bool :=
  (decide (aTime ≤ cTime) && decide (cTime < aTime + aDur)) ||
  (decide (aTime < cTime + cDur) && decide (cTime + cDur ≤ aTime + aDur))

/-- The `exclude_id` filter: `id != $5` when an exclude id is supplied
(JS `if (exclude_id)`), `p_exclude_id IS NULL OR id != p_exclude_id` in SQL. -/
def excludeOk (a : Appt) (ex : Option Nat) : Bool :=
  match ex with
  | none => true
  | some i => decide (a.id ≠ i)

/-- `Appointment.checkOverlap` (src/server.js lines 573-601): counts rows of
the same doctor and date, with status other than cancelled, passing the
exclude filter and satisfying `rowConflict`; reports a conflict when the
count is positive. -/
def checkOverlap (db : List Appt) (doctor_id appointment_date appointment_time duration_minutes : Nat)
    (exclude_id : Option Nat) : Bool :=
  decide (0 < db.countP fun a =>
    decide (a.doctorId = doctor_id) && decide (a.date = appointment_date) &&
    decide (a.status ≠ Status.cancelled) && excludeOk a exclude_id &&
    rowConflict a.time a.duration appointment_time duration_minutes)

/-- The SQL function `check_appointment_conflict`
(src/database/hospital_appointment_pg.sql lines 204-233); its `WHERE`
clause is character-for-character the condition of `checkOverlap`. -/
def check_appointment_conflict (db : List Appt)
    (p_doctor_id p_appointment_date p_appointment_time p_duration_minutes : Nat)
    (p_exclude_id : Option Nat) : Bool :=
  decide (0 < db.countP fun a =>
    decide (a.doctorId = p_doctor_id) && decide (a.date = p_appointment_date) &&
    decide (a.status ≠ Status.cancelled) && excludeOk a p_exclude_id &&
    rowConflict a.time a.duration p_appointment_time p_duration_minutes)

/-- The SQL function `check_doctor_overlap` (schema lines 236-255): strict
overlap test, exclude filter, but NO filter on `status`. Returns the
`overlap` column: `1` when any row matches, else `0`. -/
def check_doctor_overlap (db : List Appt) (p_doctor_id p_date p_start p_duration : Nat)
    (p_exclude_appt_id : Option Nat) : Nat :=
  if 0 < db.countP (fun a =>
      decide (a.doctorId = p_doctor_id) && decide (a.date = p_date) &&
      excludeOk a p_exclude_appt_id &&
      (decide (p_start < a.time + a.duration) && decide (a.time < p_start + p_duration)))
  then 1 else 0

/-- The trigger function `trg_appt_no_overlap_check` (schema lines 288-313),
fired BEFORE INSERT and BEFORE UPDATE: `true` means the trigger raises
'Overlapping appointment exists for this doctor'. On UPDATE the row itself
is excluded through `id != NEW.id`; rows with status cancelled are ignored;
the overlap test is the strict one. -/
def trg_appt_no_overlap_check (db : List Appt) (isInsert : Bool) (newRow : Appt) : Bool :=
  decide (0 < db.countP fun a =>
    decide (a.doctorId = newRow.doctorId) && decide (a.date = newRow.date) &&
    (isInsert || decide (a.id ≠ newRow.id)) &&
    decide (a.status ≠ Status.cancelled) &&
    (decide (newRow.time < a.time + a.duration) &&
     decide (a.time < newRow.time + newRow.duration)))

/-- Order-faithful encoding of `appointment_date + appointment_time`. -/
def stamp (date time : Nat) : Nat := date * 1440 + time

/-- The trigger function `trg_appt_no_past_check` (schema lines 277-285):
`true` means the trigger raises 'Cannot create appointment in the past'. -/
def trg_appt_no_past_check (now : Nat) (newRow : Appt) : Bool :=
  decide (stamp newRow.date newRow.time < now)

/-- The `uq_doctor_datetime UNIQUE (doctor_id, appointment_date,
appointment_time)` constraint (schema lines 61-62): `true` when writing
`row` violates it, i.e. some OTHER row holds the same key triple. The
constraint does not look at `status`. -/
def uq_doctor_datetime_violation (db : List Appt) (row : Appt) : Bool :=
  db.any fun a =>
    decide (a.id ≠ row.id) && decide (a.doctorId = row.doctorId) &&
    decide (a.date = row.date) && decide (a.time = row.time)

/-- Error outcomes of a write hitting the schema's triggers and constraint. -/
inductive DbErr where
  | overlapTrigger
  | pastAppointment
  | uniqueViolation
  | castError
deriving DecidableEq, Repr

/-- `INSERT INTO appointments`: the two BEFORE INSERT triggers fire first
(alphabetically `trg_appt_no_overlap_insert` before `trg_appt_no_past_insert`),
then the unique constraint is checked, then the row is added. -/
def insertAppointment (db : List Appt) (now : Nat) (row : Appt) : Except DbErr (List Appt) :=
  if trg_appt_no_overlap_check db true row then .error .overlapTrigger
  else if trg_appt_no_past_check now row then .error .pastAppointment
  else if uq_doctor_datetime_violation db row then .error .uniqueViolation
  else .ok (row :: db)

/-- Reads a nonempty all-digit character sequence as a number
(kernel-computable stand-in for `String.toNat?`). -/
def natOfDigitsAux : List Char → Nat → Option Nat
  | [], acc => some acc
  | c :: cs, acc =>
      if c.isDigit then natOfDigitsAux cs (acc * 10 + (c.toNat - 48)) else none

/-- Reads a nonempty all-digit character sequence as a number. -/
def natOfDigits (cs : List Char) : Option Nat :=
  match cs with
  | [] => none
  | _ => natOfDigitsAux cs 0

/-- Splits a character sequence on a separator character
(kernel-computable stand-in for `String.splitOn`). -/
def splitOnChar (sep : Char) : List Char → List (List Char)
  | [] => [[]]
  | c :: cs =>
      match splitOnChar sep cs with
      | [] => if c == sep then [[], []] else [[c]]
      | r :: rs => if c == sep then [] :: r :: rs else (c :: r) :: rs

/-- Strips leading and trailing whitespace
(kernel-computable stand-in for `String.trim` / JS `trim()`). -/
def trimChars (cs : List Char) : List Char :=
  ((cs.dropWhile Char.isWhitespace).reverse.dropWhile Char.isWhitespace).reverse

/-- `String.trim` over the character model. -/
def jsTrim (s : String) : String := String.mk (trimChars s.data)

/-- PostgreSQL cast `$ ::TIME` of the strings the route passes through
unparsed: `HH:MM` or `HH:MM:SS` with in-range components, yielding minutes
from midnight (appointments are minute-precision; a seconds field is
validated but dropped). -/
def parseTimeStr (s : String) : Option Nat :=
  match (splitOnChar ':' s.data).map natOfDigits with
  | [some h, some m] => if h ≤ 23 && m ≤ 59 then some (h * 60 + m) else none
  | [some h, some m, some sec] =>
      if h ≤ 23 && m ≤ 59 && sec ≤ 59 then some (h * 60 + m) else none
  | _ => none

/-- PostgreSQL cast `$ ::DATE` of a `YYYY-MM-DD` string, to the monotone
numeric date encoding. -/
def parseDateStr (s : String) : Option Nat :=
  match (splitOnChar '-' s.data).map natOfDigits with
  | [some y, some m, some d] =>
      if 1 ≤ m && m ≤ 12 && 1 ≤ d && d ≤ 31 then some (y * 10000 + m * 100 + d)
      else none
  | _ => none

/-- The regex `^\d{4}-\d{2}-\d{2}$` of the `appointment_date` rule. -/
def dateFormatOk (s : String) : Bool :=
  match s.data with
  | [a, b, c, d, h1, e, f, h2, g, k] =>
      a.isDigit && b.isDigit && c.isDigit && d.isDigit && h1 == '-' &&
      e.isDigit && f.isDigit && h2 == '-' && g.isDigit && k.isDigit
  | _ => false

/-- `[0-5][0-9]`: a minutes or seconds pair of the time regex. -/
def minutePairOk (a b : Char) : Bool :=
  (decide ('0' ≤ a) && decide (a ≤ '5')) && b.isDigit

/-- `[0-1][0-9]|2[0-3]`: a two-digit hour of the time regex. -/
def hourPairOk (a b : Char) : Bool :=
  ((decide ('0' ≤ a) && decide (a ≤ '1')) && b.isDigit) ||
  (a == '2' && (decide ('0' ≤ b) && decide (b ≤ '3')))

/-- The regex `^([0-1]?[0-9]|2[0-3]):[0-5][0-9](:[0-5][0-9])?$` of the
`appointment_time` rule. -/
def timeFormatOk (s : String) : Bool :=
  match s.data with
  | [h, c, m1, m2] => h.isDigit && c == ':' && minutePairOk m1 m2
  | [h1, h2, c, m1, m2] => hourPairOk h1 h2 && c == ':' && minutePairOk m1 m2
  | [h, c, m1, m2, c2, s1, s2] =>
      h.isDigit && c == ':' && minutePairOk m1 m2 && c2 == ':' && minutePairOk s1 s2
  | [h1, h2, c, m1, m2, c2, s1, s2] =>
      hourPairOk h1 h2 && c == ':' && minutePairOk m1 m2 && c2 == ':' && minutePairOk s1 s2
  | _ => false

/-- The body of `POST /appointments` as the route destructures it. The two id
fields arrive as numbers (the Nat model folds the JS `NaN`/negative cases
into the same rejection bucket as non-positive values); date, time and notes
arrive as raw strings; `duration_minutes` is `none` when the field is absent
from the request. -/
structure RawBookingRequest where
  patient_id : Nat
  doctor_id : Nat
  appointment_date : String
  appointment_time : String
  duration_minutes : Option Nat
  notes : String
deriving DecidableEq, Repr

/-- What `validateInput` (src/routes/index.js lines 86-173) returns: an object
with fields `isValid`, `errors` and `sanitizedData` — and no `length` field. -/
structure ValidationResult where
  isValid : Bool
  errors : List String
deriving DecidableEq, Repr

/-- `validateInput` on an id field with rule `required: true` and the
positive-integer custom check. A falsy value (`0`) fails the required check
first; otherwise the custom check `Number.isInteger(v) && v > 0` runs. -/
def idFieldErrors (v : Nat) (msgRequired msgCustom : String) : List String :=
  if v = 0 then [msgRequired]
  else if decide (0 < v) then [] else [msgCustom]

/-- `validateInput` on `appointment_date`: required, then the date pattern,
then the custom check `new Date(value) >= today`. The JS `Date`-object
comparison against the caller's clock is the external parameter `jsDateGe`.
Both the pattern error and the custom error use the rule's single
`customMessage`. -/
def dateFieldErrors (jsDateGe : String → Bool) (s : String) : List String :=
  if jsTrim s = "" then ["appointment_date is required"]
  else
    (if dateFormatOk (jsTrim s) then [] else ["Appointment date must be today or in the future"]) ++
    (if jsDateGe s then [] else ["Appointment date must be today or in the future"])

/-- `validateInput` on `appointment_time`: required, then the time pattern. -/
def timeFieldErrors (s : String) : List String :=
  if jsTrim s = "" then ["appointment_time is required"]
  else if timeFormatOk (jsTrim s) then [] else ["Time must be in HH:MM format"]

/-- `validateInput` on `duration_minutes` (rule `required: false`, custom
`Number.isInteger(num) && num >= 15 && num <= 240`). The route's
destructuring default has already substituted 30 for an absent field, so the
value is always present here (`0` is not skipped: `!value && value !== 0`
is false for `0`). -/
def durationFieldErrors (v : Nat) : List String :=
  if decide (15 ≤ v) && decide (v ≤ 240) then []
  else ["Duration must be between 15 and 240 minutes"]

/-- `validateInput` on `notes` (rule `required: false, maxLength: 500`): an
empty string is skipped as falsy, otherwise the trimmed length is bounded. -/
def notesFieldErrors (s : String) : List String :=
  if s = "" then []
  else if decide (500 < (trimChars s.data).length) then ["notes cannot exceed 500 characters"]
  else []

/-- `validateInput` specialised to the rule set of `POST /appointments`
(src/routes/index.js lines 817-868), accumulating field errors in rule
order. `dur` is the duration after the destructuring default. -/
def validateInput_appointment (jsDateGe : String → Bool) (req : RawBookingRequest)
    (dur : Nat) : ValidationResult :=
  let errs :=
    idFieldErrors req.patient_id "patient_id is required" "Patient ID must be a positive integer" ++
    idFieldErrors req.doctor_id "doctor_id is required" "Doctor ID must be a positive integer" ++
    dateFieldErrors jsDateGe req.appointment_date ++
    timeFieldErrors req.appointment_time ++
    durationFieldErrors dur ++
    notesFieldErrors req.notes
  { isValid := errs.isEmpty, errors := errs }

/-- JS property access `validationErrors.length` where `validationErrors` is
the OBJECT returned by `validateInput`: the object has no `length` property,
so the access evaluates to `undefined` for every input. -/
def lengthProperty (_ : ValidationResult) : Option Nat := none

/-- JS comparison `x > y` where `x` may be `undefined`: `undefined > y`
evaluates to `false`. -/
def jsUndefGt (x : Option Nat) (y : Nat) : Bool :=
  match x with
  | none => false
  | some n => decide (y < n)

/-- `Appointment.create` (src/server.js lines 421-436): builds the inserted
row, with JS default parameters `duration_minutes = 30`,
`status = 'scheduled'`, `notes = ''` substituted when the corresponding
argument is absent (`undefined`). -/
def appointmentCreateRow (id patient_id doctor_id appointment_date appointment_time : Nat)
    (duration_minutes : Option Nat) (status : Option Status) (notes : Option String) : Appt :=
  { id := id, patientId := patient_id, doctorId := doctor_id,
    date := appointment_date, time := appointment_time,
    duration := duration_minutes.getD 30,
    status := status.getD Status.scheduled,
    notes := notes.getD "" }

/-- Outcome of `POST /appointments`. -/
inductive BookingOutcome where
  | validationFailed (errors : List String)
  | patientNotFound
  | doctorNotFound
  | conflict
  | dbError (e : DbErr)
  | created (a : Appt)
deriving DecidableEq, Repr

/-- Whether a booking outcome is the 201 success. -/
def BookingOutcome.isCreated : BookingOutcome → Bool
  | .created _ => true
  | _ => false

/-- The HTTP status each outcome maps to: 400 from the validation branch, 404
from the reference checks, 409 from the conflict branch, 201 on success, and
for errors raised by the storage layer what `handleDatabaseError` assigns —
409 for SQLSTATE 23505 (`unique_violation`), 500 (`DATABASE_ERROR`) for a
trigger `RAISE EXCEPTION` or a failed cast. -/
def bookingHttpStatus : BookingOutcome → Nat
  | .validationFailed _ => 400
  | .patientNotFound => 404
  | .doctorNotFound => 404
  | .conflict => 409
  | .dbError .uniqueViolation => 409
  | .dbError _ => 500
  | .created _ => 201

/-- `POST /appointments` (src/routes/index.js lines 806-974): destructuring
default for the duration, the validation guard (testing `.length` of the
result object), the patient and doctor existence checks, the
`check_appointment_conflict` call (whose SQL casts the raw date and time
strings; a failed cast also fails the fallback `checkOverlap` query the same
way and surfaces through `handleDatabaseError`), and finally
`Appointment.create`, which runs the schema's triggers and unique
constraint. `patients` and `doctors` are the id sets of the two reference
tables; `newId` is the serial id the insert would assign. -/
def bookAppointment (patients doctors : List Nat) (db : List Appt) (now : Nat)
    (jsDateGe : String → Bool) (req : RawBookingRequest) (newId : Nat) :
    BookingOutcome × List Appt :=
  let dur := req.duration_minutes.getD 30
  let v := validateInput_appointment jsDateGe req dur
  if jsUndefGt (lengthProperty v) 0 then (.validationFailed v.errors, db)
  else if ¬ patients.contains req.patient_id then (.patientNotFound, db)
  else if ¬ doctors.contains req.doctor_id then (.doctorNotFound, db)
  else
    match parseDateStr req.appointment_date, parseTimeStr req.appointment_time with
    | some d, some t =>
        if check_appointment_conflict db req.doctor_id d t dur none then (.conflict, db)
        else
          let row := appointmentCreateRow newId req.patient_id req.doctor_id d t
            (some dur) (some Status.scheduled) (some (jsTrim req.notes))
          match insertAppointment db now row with
          | .error e => (.dbError e, db)
          | .ok db2 => (.created row, db2)
    | _, _ => (.dbError .castError, db)

/-- Clock oracle for concrete runs: every date passes the JS
`new Date(value) >= today` test (the scenarios below use a far-future date). -/
def alwaysFuture : String → Bool := fun _ => true

/-- A scheduled appointment 09:10-09:20 on 2099-01-02 for doctor 1. -/
def apptContained : Appt :=
  { id := 1, patientId := 1, doctorId := 1, date := 20990102, time := 550,
    duration := 10, status := Status.scheduled, notes := "" }

/-- A cancelled appointment 09:00-09:30 on 2099-01-02 for doctor 1. -/
def apptCancelled0900 : Appt :=
  { id := 1, patientId := 1, doctorId := 1, date := 20990102, time := 540,
    duration := 30, status := Status.cancelled, notes := "" }

/-- A booking request for doctor 1 on 2099-01-02 at 09:00 for 30 minutes. -/
def reqBook0900 : RawBookingRequest :=
  { patient_id := 1, doctor_id := 1, appointment_date := "2099-01-02",
    appointment_time := "09:00", duration_minutes := some 30, notes := "" }

/-- The same booking request with an out-of-range duration of 10 minutes. -/
def reqDuration10 : RawBookingRequest :=
  { patient_id := 1, doctor_id := 1, appointment_date := "2099-01-02",
    appointment_time := "09:00", duration_minutes := some 10, notes := "" }

/-- C1: the claim states that `Appointment.checkOverlap` and
`check_appointment_conflict` report a conflict if and only if some
non-excluded non-cancelled appointment of the schedule overlaps the
candidate under `a.start < b.end AND b.start < a.end`. This fails when an
existing appointment lies strictly inside the candidate's interval: with a
scheduled appointment 09:10-09:20 on the schedule, the candidate 09:00+30min
overlaps it, yet both checks report no conflict, and the booking then dies
on the schema's own (correct) overlap trigger with a 500 instead of a 409. -/
theorem C1_conflict_check_misses_contained_interval :
    checkOverlap [apptContained] 1 20990102 540 30 none = false ∧
    check_appointment_conflict [apptContained] 1 20990102 540 30 none = false ∧
    overlapsStrict 540 30 apptContained.time apptContained.duration = true ∧
    apptContained.status ≠ Status.cancelled ∧
    bookAppointment [1] [1] [apptContained] 0 alwaysFuture reqBook0900 2 =
      (BookingOutcome.dbError DbErr.overlapTrigger, [apptContained]) ∧
    bookingHttpStatus
      (bookAppointment [1] [1] [apptContained] 0 alwaysFuture reqBook0900 2).1 = 500 := by
  decide

/-- C4: the claim states that a cancelled appointment at 09:00+30min never
blocks a new booking of the same doctor, date, time and duration, end to end
including the persistence step. The conflict checks do exclude the cancelled
row, but the `uq_doctor_datetime` unique constraint ignores status, so the
INSERT fails with SQLSTATE 23505 and the route answers 409, not 201. -/
theorem C4_cancelled_slot_blocks_exact_rebooking :
    checkOverlap [apptCancelled0900] 1 20990102 540 30 none = false ∧
    check_appointment_conflict [apptCancelled0900] 1 20990102 540 30 none = false ∧
    bookAppointment [1] [1] [apptCancelled0900] 0 alwaysFuture reqBook0900 2 =
      (BookingOutcome.dbError DbErr.uniqueViolation, [apptCancelled0900]) ∧
    bookingHttpStatus
      (bookAppointment [1] [1] [apptCancelled0900] 0 alwaysFuture reqBook0900 2).1 = 409 ∧
    (bookAppointment [1] [1] [apptCancelled0900] 0 alwaysFuture reqBook0900 2).1.isCreated
      = false := by
  decide

/-- C5: the claim states that a booking whose duration lies outside 15-240
minutes is rejected with HTTP 400 and no appointment is created. The route
does compute the validation errors, but then tests
`validationErrors.length > 0` on the returned OBJECT — `.length` is
`undefined`, the guard is always false — so a request with duration 10 sails
through validation and the appointment is created (201) with duration 10. -/
theorem C5_validation_guard_never_fires :
    (validateInput_appointment alwaysFuture reqDuration10 10).errors =
      ["Duration must be between 15 and 240 minutes"] ∧
    (validateInput_appointment alwaysFuture reqDuration10 10).isValid = false ∧
    jsUndefGt (lengthProperty (validateInput_appointment alwaysFuture reqDuration10 10)) 0
      = false ∧
    (bookAppointment [1] [1] [] 0 alwaysFuture reqDuration10 1).1 =
      BookingOutcome.created (appointmentCreateRow 1 1 1 20990102 540
        (some 10) (some Status.scheduled) (some "")) ∧
    bookingHttpStatus (bookAppointment [1] [1] [] 0 alwaysFuture reqDuration10 1).1
      = 201 := by
  decide

/-- C7: the claim states that every conflict-decision path ignores cancelled
appointments, naming `Appointment.checkOverlap`, `check_appointment_conflict`
and `check_doctor_overlap`. The first two filter `status != 'cancelled'`,
but `check_doctor_overlap` has no status condition at all: adding a
cancelled 09:00-09:30 appointment to an empty schedule flips its answer
from 0 to 1 for the candidate 09:00+30min, while the other two checks are
unaffected at the same input. -/
theorem C7_check_doctor_overlap_counts_cancelled :
    apptCancelled0900.status = Status.cancelled ∧
    check_doctor_overlap [apptCancelled0900] 1 20990102 540 30 none = 1 ∧
    check_doctor_overlap [] 1 20990102 540 30 none = 0 ∧
    checkOverlap [apptCancelled0900] 1 20990102 540 30 none =
      checkOverlap [] 1 20990102 540 30 none ∧
    check_appointment_conflict [apptCancelled0900] 1 20990102 540 30 none =
      check_appointment_conflict [] 1 20990102 540 30 none := by
  decide

/-- The body of `PUT /appointments/:id` / the argument of
`Appointment.updateById`: every column is optional; absent fields are left
unchanged. The date and time fields are modelled post-parse (they are strings
on the wire). -/
structure UpdateBody where
  patient_id : Option Nat
  doctor_id : Option Nat
  appointment_date : Option Nat
  appointment_time : Option Nat
  duration_minutes : Option Nat
  status : Option Status
  notes : Option String
deriving DecidableEq, Repr

/-- An `UpdateBody` with every field absent. -/
def UpdateBody.empty : UpdateBody :=
  { patient_id := none, doctor_id := none, appointment_date := none,
    appointment_time := none, duration_minutes := none, status := none,
    notes := none }

/-- The row `UPDATE appointments SET ...` produces: provided fields replace
the old values, absent fields keep them; `id` is never in the SET list. -/
def mergeUpdate (a : Appt) (u : UpdateBody) : Appt :=
  { a with
    patientId := u.patient_id.getD a.patientId,
    doctorId := u.doctor_id.getD a.doctorId,
    date := u.appointment_date.getD a.date,
    time := u.appointment_time.getD a.time,
    duration := u.duration_minutes.getD a.duration,
    status := u.status.getD a.status,
    notes := u.notes.getD a.notes }

/-- `Appointment.updateById` (src/server.js lines 523-566): with no provided
field it returns `false` without touching the database; otherwise the
`UPDATE ... WHERE id = $n` finds the row (else `rowCount = 0`, `false`),
fires the BEFORE UPDATE triggers (alphabetically the overlap trigger first,
then the past trigger), checks the unique constraint, and on success
replaces the row. Returns whether a row was updated, with the new table. -/
def updateById (db : List Appt) (now : Nat) (id : Nat) (u : UpdateBody) :
    Except DbErr (Bool × List Appt) :=
  if u.patient_id.isNone && u.doctor_id.isNone && u.appointment_date.isNone &&
     u.appointment_time.isNone && u.duration_minutes.isNone && u.status.isNone &&
     u.notes.isNone then .ok (false, db)
  else
    match db.find? (fun a => a.id == id) with
    | none => .ok (false, db)
    | some a =>
        if trg_appt_no_overlap_check db false (mergeUpdate a u) then .error .overlapTrigger
        else if trg_appt_no_past_check now (mergeUpdate a u) then .error .pastAppointment
        else if uq_doctor_datetime_violation db (mergeUpdate a u) then .error .uniqueViolation
        else .ok (true, db.map fun r => if r.id == id then mergeUpdate a u else r)

/-- JS truthiness of a numeric field: absent (`undefined`) and `0` are falsy. -/
def numTruthy : Option Nat → Bool
  | none => false
  | some n => n != 0

/-- Outcome of `PUT /appointments/:id`. -/
inductive UpdateOutcome where
  | conflict400
  | notFound404
  | dbError (e : DbErr)
  | ok200
deriving DecidableEq, Repr

/-- The tail of `PUT /appointments/:id`: the `updateById` call and the
translation of its result (404 on `rowCount = 0`, 500 on a raised
exception — this route's catch block answers a plain 500). -/
def putAppointmentRest (db : List Appt) (now : Nat) (id : Nat) (u : UpdateBody) :
    UpdateOutcome × List Appt :=
  match updateById db now id u with
  | .error e => (.dbError e, db)
  | .ok (false, _) => (.notFound404, db)
  | .ok (true, db2) => (.ok200, db2)

/-- `PUT /appointments/:id` (src/routes/index.js lines 1060-1110): only when
`doctor_id && appointment_date && appointment_time && duration_minutes` are
all truthy does the route re-run `Appointment.checkOverlap` (excluding the
appointment's own id) before updating; a partial update skips that check and
goes straight to `updateById` — where the schema's BEFORE UPDATE triggers
still run. The string-typed date and time fields are truthy when present
(the empty string would not reach this point), the numeric fields when
present and nonzero. -/
def putAppointment (db : List Appt) (now : Nat) (id : Nat) (u : UpdateBody) :
    UpdateOutcome × List Appt :=
  if numTruthy u.doctor_id && u.appointment_date.isSome && u.appointment_time.isSome &&
     numTruthy u.duration_minutes then
    if checkOverlap db (u.doctor_id.getD 0) (u.appointment_date.getD 0)
        (u.appointment_time.getD 0) (u.duration_minutes.getD 0) (some id) then
      (.conflict400, db)
    else putAppointmentRest db now id u
  else putAppointmentRest db now id u

/-- Outcome of `PATCH /appointments/:id/status`. -/
inductive PatchOutcome where
  | invalidId
  | invalidStatus
  | notFound
  | invalidTransition
  | dbError (e : DbErr)
  | ok (s : Status)
deriving DecidableEq, Repr

/-- `PATCH /appointments/:id/status` (src/routes/index.js lines 1113-1180):
id must be a positive integer; the requested status must be one of the four
valid strings (`none` models a missing or unrecognised value); the
appointment must exist; then the ONLY transition guard in the code runs —
`existingAppointment.status === 'completed' && status === 'cancelled'` —
and every other pair goes straight to `updateById` with the new status. -/
def patchAppointmentStatus (db : List Appt) (now : Nat) (id : Nat)
    (status? : Option Status) : PatchOutcome × List Appt :=
  if id = 0 then (.invalidId, db)
  else
    match status? with
    | none => (.invalidStatus, db)
    | some status =>
        match db.find? (fun a => a.id == id) with
        | none => (.notFound, db)
        | some existing =>
            if decide (existing.status = Status.completed) &&
               decide (status = Status.cancelled) then (.invalidTransition, db)
            else
              match updateById db now id { UpdateBody.empty with status := some status } with
              | .error e => (.dbError e, db)
              | .ok (false, _) => (.notFound, db)
              | .ok (true, db2) => (.ok status, db2)

/-- The status-transition table as the specification words it (section 4.6):
exactly the four edges scheduled→checked_in, scheduled→cancelled,
checked_in→completed and checked_in→cancelled are allowed. Stated from the
spec for comparison against the code's behaviour. -/
def specTransitionAllowed : Status → Status → Bool
  | .scheduled, .checked_in => true
  | .scheduled, .cancelled => true
  | .checked_in, .completed => true
  | .checked_in, .cancelled => true
  | _, _ => false

/-- A cancelled appointment used to exercise the status route. -/
def apptCancelledForPatch : Appt :=
  { id := 1, patientId := 1, doctorId := 1, date := 20990102, time := 540,
    duration := 30, status := Status.cancelled, notes := "" }

/-- C3 counterexample: the claim says a status update succeeds only for the
four pairs of the transition table, and in particular that cancelled→any
fails. On the code, requesting `scheduled` for a cancelled appointment
succeeds: the route's only guard is completed→cancelled. -/
theorem C3_counterexample_cancelled_to_scheduled :
    specTransitionAllowed Status.cancelled Status.scheduled = false ∧
    (patchAppointmentStatus [apptCancelledForPatch] 0 1 (some Status.scheduled)).1 =
      PatchOutcome.ok Status.scheduled ∧
    (patchAppointmentStatus [apptCancelledForPatch] 0 1 (some Status.scheduled)).2 =
      [{ apptCancelledForPatch with status := Status.scheduled }] := by
  decide

/-- A status-only `updateById` succeeds and rewrites just the status, provided
the row exists, its timestamp is not in the past, and its interval neither
overlaps another live row nor shares its exact key with another row (the
BEFORE UPDATE triggers and the unique constraint fire on every update). -/
theorem updateById_statusOnly (db : List Appt) (now id : Nat) (req : Status) (a : Appt)
    (hfind : db.find? (fun x => x.id == id) = some a)
    (hfuture : ¬ stamp a.date a.time < now)
    (hnoov : ∀ r ∈ db, r.id ≠ a.id → r.doctorId = a.doctorId → r.date = a.date →
      r.status ≠ Status.cancelled → overlapsStrict a.time a.duration r.time r.duration = false)
    (huniq : ∀ r ∈ db, r.id ≠ a.id →
      ¬(r.doctorId = a.doctorId ∧ r.date = a.date ∧ r.time = a.time)) :
    updateById db now id { UpdateBody.empty with status := some req } =
      .ok (true, db.map fun r => if r.id == id then { a with status := req } else r) := by
  have hm : mergeUpdate a { UpdateBody.empty with status := some req } =
      { a with status := req } := rfl
  have htrg : trg_appt_no_overlap_check db false { a with status := req } = false := by
    simp only [trg_appt_no_overlap_check, decide_eq_false_iff_not, Nat.not_lt, Nat.le_zero,
      List.countP_eq_zero]
    intro r hr hpred
    simp only [Bool.and_eq_true, Bool.or_eq_true, decide_eq_true_eq] at hpred
    obtain ⟨⟨⟨⟨hdoc, hdate⟩, hid'⟩, hst⟩, hov1, hov2⟩ := hpred
    have hid2 : r.id ≠ a.id := by
      rcases hid' with h | h
      · exact absurd h (by simp)
      · exact h
    have := hnoov r hr hid2 hdoc hdate hst
    simp only [overlapsStrict, Bool.and_eq_false_iff, decide_eq_false_iff_not] at this
    rcases this with h | h
    · exact h hov1
    · exact h hov2
  have hpast : trg_appt_no_past_check now { a with status := req } = false := by
    simp only [trg_appt_no_past_check, decide_eq_false_iff_not]
    exact hfuture
  have huq : uq_doctor_datetime_violation db { a with status := req } = false := by
    simp only [uq_doctor_datetime_violation, List.any_eq_false]
    intro r hr hpred
    simp only [Bool.and_eq_true, decide_eq_true_eq] at hpred
    obtain ⟨⟨⟨hid', hdoc⟩, hdate⟩, htime⟩ := hpred
    exact huniq r hr hid' ⟨hdoc, hdate, htime⟩
  unfold updateById
  simp only [UpdateBody.empty, Option.isNone_none, Option.isNone_some, Bool.and_true,
    Bool.and_false, Bool.true_and, Bool.false_and, if_false, Bool.false_eq_true]
  rw [hfind]
  have hm2 : mergeUpdate a
      { patient_id := none, doctor_id := none, appointment_date := none,
        appointment_time := none, duration_minutes := none, status := some req,
        notes := none } = { a with status := req } := rfl
  simp only [hm2, htrg, hpast, huq]
  simp

/-- C3 amended: the status-update route accepts EVERY (current, requested)
pair except completed→cancelled — in particular cancelled→scheduled,
completed→scheduled and cancelled→completed all succeed — and the rejected
pair leaves the table unchanged. Stated for an existing appointment whose
timestamp is not in the past and whose interval raises neither the schema's
overlap trigger nor the unique constraint (those fire on every UPDATE and
are orthogonal to the transition logic). -/
theorem C3_amended_only_completed_to_cancelled_rejected
    (db : List Appt) (now id : Nat) (req : Status) (a : Appt)
    (hfind : db.find? (fun x => x.id == id) = some a)
    (hid : id ≠ 0)
    (hfuture : ¬ stamp a.date a.time < now)
    (hnoov : ∀ r ∈ db, r.id ≠ a.id → r.doctorId = a.doctorId → r.date = a.date →
      r.status ≠ Status.cancelled → overlapsStrict a.time a.duration r.time r.duration = false)
    (huniq : ∀ r ∈ db, r.id ≠ a.id →
      ¬(r.doctorId = a.doctorId ∧ r.date = a.date ∧ r.time = a.time)) :
    (patchAppointmentStatus db now id (some req)).1 =
      (if a.status = Status.completed ∧ req = Status.cancelled
       then PatchOutcome.invalidTransition else PatchOutcome.ok req) ∧
    ((a.status = Status.completed ∧ req = Status.cancelled) →
      (patchAppointmentStatus db now id (some req)).2 = db) := by
  unfold patchAppointmentStatus
  simp only [if_neg hid, hfind]
  by_cases hc : a.status = Status.completed ∧ req = Status.cancelled
  · simp [hc.1, hc.2]
  · have hg : (decide (a.status = Status.completed) &&
        decide (req = Status.cancelled)) = false := by
      by_cases h1 : a.status = Status.completed
      · have h2 : req ≠ Status.cancelled := fun h => hc ⟨h1, h⟩
        simp [h1, h2]
      · simp [h1]
    simp only [hg, Bool.false_eq_true, if_false,
      updateById_statusOnly db now id req a hfind hfuture hnoov huniq]
    simp [hc]

/-- C3 witness: a concrete run of the amended statement — checking in a
scheduled appointment succeeds. -/
theorem C3_amended_witness :
    (patchAppointmentStatus [apptContained] 0 1 (some Status.checked_in)).1 =
      PatchOutcome.ok Status.checked_in := by
  have h := C3_amended_only_completed_to_cancelled_rejected [apptContained] 0 1
    Status.checked_in apptContained (by decide) (by decide) (by decide)
    (by decide) (by decide)
  rw [if_neg (by decide)] at h
  exact h.1

/-- One booking request in flight in the concurrency model of
`POST /appointments`. `pc` is its program counter:
0 — the route's `check_appointment_conflict` SELECT has not run yet;
1 — that SELECT found no conflict;
2 — the INSERT statement has executed (BEFORE triggers passed against the
    statement's READ COMMITTED snapshot) but its transaction has not
    committed, so the row is invisible to other transactions' trigger
    SELECTs while the unique index already holds its key;
3 — committed;
4 — stopped (409 from the route check, or an exception from the INSERT). -/
structure BookingTxn where
  row : Appt
  pc : Nat
deriving DecidableEq, Repr

/-- The rows a transaction holds inserted-but-uncommitted. -/
def pendingOf (t : BookingTxn) : List Appt :=
  if t.pc = 2 then [t.row] else []

/-- One step of a single booking request. The route's conflict SELECT and the
INSERT are separate statements in separate implicit transactions, exactly as
in `router.post('/appointments')`: each sees only rows committed at its own
start. The unique index, unlike the trigger's SELECT, also collides with
other transactions' uncommitted inserts. -/
def txnAdvance (now : Nat) (committed otherPending : List Appt) (t : BookingTxn) :
    BookingTxn × List Appt :=
  if t.pc = 0 then
    if check_appointment_conflict committed t.row.doctorId t.row.date t.row.time
        t.row.duration none
    then ({ t with pc := 4 }, committed)
    else ({ t with pc := 1 }, committed)
  else if t.pc = 1 then
    if trg_appt_no_overlap_check committed true t.row then ({ t with pc := 4 }, committed)
    else if trg_appt_no_past_check now t.row then ({ t with pc := 4 }, committed)
    else if uq_doctor_datetime_violation (otherPending ++ committed) t.row then
      ({ t with pc := 4 }, committed)
    else ({ t with pc := 2 }, committed)
  else if t.pc = 2 then ({ t with pc := 3 }, t.row :: committed)
  else (t, committed)

/-- Two concurrent booking requests over the shared appointments table. -/
structure ConcState where
  committed : List Appt
  txnA : BookingTxn
  txnB : BookingTxn
deriving DecidableEq, Repr

/-- Scheduler step: `false` advances request A, `true` advances request B. -/
def stepSys (now : Nat) (st : ConcState) (choice : Bool) : ConcState :=
  if choice then
    let p := txnAdvance now st.committed (pendingOf st.txnA) st.txnB
    { st with txnB := p.1, committed := p.2 }
  else
    let p := txnAdvance now st.committed (pendingOf st.txnB) st.txnA
    { st with txnA := p.1, committed := p.2 }

/-- Runs a finite schedule of interleaving choices. -/
def runSys (now : Nat) (st : ConcState) : List Bool → ConcState
  | [] => st
  | c :: rest => runSys now (stepSys now st c) rest

/-- The central invariant of section 3 of the specification: no two distinct
non-cancelled appointments of one doctor on one date overlap. -/
def apptsCompatible (a b : Appt) : Prop :=
  a.doctorId = b.doctorId → a.date = b.date → a.status ≠ Status.cancelled →
    b.status ≠ Status.cancelled →
    overlapsStrict a.time a.duration b.time b.duration = false

/-- The no-overlap invariant over a table, pairwise along the list. -/
def pairwiseNoOverlap (db : List Appt) : Prop :=
  db.Pairwise apptsCompatible

/-- Request A of the racing pair: doctor 1, 2099-01-02, 09:00+30min. -/
def raceRowA : Appt :=
  { id := 101, patientId := 1, doctorId := 1, date := 20990102, time := 540,
    duration := 30, status := Status.scheduled, notes := "" }

/-- Request B of the racing pair: doctor 1, 2099-01-02, 09:15+30min. -/
def raceRowB : Appt :=
  { id := 102, patientId := 2, doctorId := 1, date := 20990102, time := 555,
    duration := 30, status := Status.scheduled, notes := "" }

/-- Both requests poised against an empty schedule. -/
def raceStart : ConcState :=
  { committed := [], txnA := { row := raceRowA, pc := 0 },
    txnB := { row := raceRowB, pc := 0 } }

/-- The interleaving that breaks the invariant: both route checks run, then
both INSERT statements execute before either transaction commits, then both
commit. -/
def raceSchedule : List Bool := [false, true, false, true, false, true]

/-- C2: the claim states that the conflict check and the insert of the
booking path are atomic, so concurrent bookings can never commit two
overlapping non-cancelled appointments for one doctor. They are in fact
separate statements with no transaction, lock or exclusion constraint
around them: under the schedule where both requests pass their conflict
SELECT and both INSERT statements run before either commits (the trigger's
SELECT cannot see the other's uncommitted row under READ COMMITTED), both
requests commit and the table ends with two overlapping scheduled
appointments, 09:00-09:30 and 09:15-09:45, for the same doctor and date. -/
theorem C2_booking_race_commits_overlap :
    (runSys 0 raceStart raceSchedule).committed = [raceRowB, raceRowA] ∧
    (runSys 0 raceStart raceSchedule).txnA.pc = 3 ∧
    (runSys 0 raceStart raceSchedule).txnB.pc = 3 ∧
    raceRowA.doctorId = raceRowB.doctorId ∧
    raceRowA.date = raceRowB.date ∧
    raceRowA.status ≠ Status.cancelled ∧
    raceRowB.status ≠ Status.cancelled ∧
    overlapsStrict raceRowA.time raceRowA.duration raceRowB.time raceRowB.duration = true ∧
    ¬ pairwiseNoOverlap (runSys 0 raceStart raceSchedule).committed := by
  refine ⟨by decide, by decide, by decide, by decide, by decide, by decide, by decide,
    by decide, ?_⟩
  intro h
  have := (List.pairwise_cons.mp h).1 raceRowA (by decide)
  exact absurd (this (by decide) (by decide) (by decide) (by decide)) (by decide)

/-- Interval overlap is symmetric. -/
theorem overlapsStrict_comm (s1 d1 s2 d2 : Nat) :
    overlapsStrict s1 d1 s2 d2 = overlapsStrict s2 d2 s1 d1 := by
  simp only [overlapsStrict]
  exact Bool.and_comm _ _

/-- Replacing the row with the given id by `merged` keeps the table
pairwise-overlap-free, provided the BEFORE UPDATE overlap trigger accepted
`merged` against the table. -/
theorem pairwiseNoOverlap_update (db : List Appt) (id : Nat) (merged : Appt)
    (hmid : merged.id = id)
    (hids : (db.map Appt.id).Nodup)
    (hinv : pairwiseNoOverlap db)
    (htrg : trg_appt_no_overlap_check db false merged = false) :
    pairwiseNoOverlap (db.map fun r => if r.id == id then merged else r) := by
  have hzero : ∀ r ∈ db, r.id ≠ merged.id → r.doctorId = merged.doctorId →
      r.date = merged.date → r.status ≠ Status.cancelled →
      overlapsStrict merged.time merged.duration r.time r.duration = false := by
    simp only [trg_appt_no_overlap_check, decide_eq_false_iff_not, Nat.not_lt, Nat.le_zero,
      List.countP_eq_zero] at htrg
    intro r hr hne hdoc hdate hst
    cases hov : overlapsStrict merged.time merged.duration r.time r.duration with
    | false => rfl
    | true =>
        exfalso
        apply htrg r hr
        simp only [overlapsStrict, Bool.and_eq_true, decide_eq_true_eq] at hov
        simp [hdoc, hdate, hne, hst, hov.1, hov.2]
  have hno : ∀ r ∈ db, r.id ≠ id → apptsCompatible merged r ∧ apptsCompatible r merged := by
    intro r hr hne
    have hne2 : r.id ≠ merged.id := by rw [hmid]; exact hne
    constructor
    · intro hdoc hdate _ hrs
      exact hzero r hr hne2 hdoc.symm hdate.symm hrs
    · intro hdoc hdate hrs _
      rw [overlapsStrict_comm]
      exact hzero r hr hne2 hdoc hdate hrs
  have hidp : db.Pairwise fun a b => a.id ≠ b.id := by
    rw [List.Nodup, List.pairwise_map] at hids
    exact hids
  rw [pairwiseNoOverlap, List.pairwise_map]
  refine List.Pairwise.imp_of_mem ?_ (hinv.and hidp)
  intro a b ha hb hab
  by_cases haid : a.id = id
  · by_cases hbid : b.id = id
    · exact absurd (haid.trans hbid.symm) hab.2
    · simp only [haid, hbid, beq_self_eq_true, beq_iff_eq, if_true, if_false]
      exact (hno b hb hbid).1

  · by_cases hbid : b.id = id
    · simp only [haid, hbid, beq_self_eq_true, beq_iff_eq, if_true, if_false]
      exact (hno a ha haid).2
    · simp only [beq_iff_eq, haid, hbid, if_false]
      exact hab.1

/-- Anatomy of a successful `updateById`: the row was found, the overlap
trigger accepted the merged row, and the table maps that id to the merged
row. -/
theorem updateById_ok_shape (db : List Appt) (now id : Nat) (u : UpdateBody)
    (db2 : List Appt) (h : updateById db now id u = .ok (true, db2)) :
    ∃ a, db.find? (fun x => x.id == id) = some a ∧
      trg_appt_no_overlap_check db false (mergeUpdate a u) = false ∧
      db2 = db.map fun r => if r.id == id then mergeUpdate a u else r := by
  unfold updateById at h
  split at h
  · simp at h
  · split at h
    · simp at h
    · next a hfind =>
        split at h
        · simp at h
        next htrg =>
          split at h
          · simp at h
          next =>
            split at h
            · simp at h
            next =>
              refine ⟨a, hfind, ?_, ?_⟩
              · exact Bool.eq_false_iff.mpr htrg
              · simp only [Except.ok.injEq, Prod.mk.injEq] at h
                exact h.2.symm

/-- C6: every update of an appointment that is persisted goes through
conflict detection excluding the appointment's own record — the route-level
`checkOverlap` when all four time fields are supplied, and on every
persisting update, partial ones included, the schema's BEFORE UPDATE overlap
trigger — so the per-doctor no-overlap invariant is preserved by the update
path for all inputs. -/
theorem C6_update_path_preserves_no_overlap (db : List Appt) (now id : Nat) (u : UpdateBody)
    (hids : (db.map Appt.id).Nodup) (hinv : pairwiseNoOverlap db) :
    pairwiseNoOverlap (putAppointment db now id u).2 := by
  have hrest : pairwiseNoOverlap (putAppointmentRest db now id u).2 := by
    unfold putAppointmentRest
    split
    · exact hinv
    · exact hinv
    · next db2 heq =>
        obtain ⟨a, hfind, htrg, hdb2⟩ := updateById_ok_shape db now id u db2 heq
        have hmid : (mergeUpdate a u).id = id := by
          have hp := List.find?_some hfind
          simpa [mergeUpdate] using hp
        rw [hdb2]
        exact pairwiseNoOverlap_update db id (mergeUpdate a u) hmid hids hinv htrg
  unfold putAppointment
  split
  · split
    · exact hinv
    · exact hrest
  · exact hrest

/-- C6 witness: a partial update moving the only appointment's start time —
with neither the doctor nor the duration supplied the route-level check is
skipped — keeps the table overlap-free. -/
theorem C6_witness :
    ((([apptContained].map Appt.id).Nodup ∧ pairwiseNoOverlap [apptContained]) ∧
      pairwiseNoOverlap
        (putAppointment [apptContained] 0 1
          { UpdateBody.empty with appointment_time := some 600 }).2) := by
  refine ⟨⟨by decide, ?_⟩, ?_⟩
  · exact List.pairwise_singleton _ _
  · exact C6_update_path_preserves_no_overlap [apptContained] 0 1
      { UpdateBody.empty with appointment_time := some 600 } (by decide)
      (List.pairwise_singleton _ _)

/-- `Doctor.getAvailableSlots` (src/server.js lines 400-412): the schedule
query of the slot route — the doctor's appointments on the date whose status
is not cancelled. -/
def getAvailableSlots (db : List Appt) (doctor_id date : Nat) : List Appt :=
  db.filter fun a =>
    a.doctorId == doctor_id && a.date == date && a.status != Status.cancelled

/-- The fixed grid of `GET /doctors/:id/available-slots/:date`
(src/routes/index.js lines 563-593): `for hour in 9..<17, for minute in
0,30`, i.e. slot start times in minutes. -/
def slotTimes : List Nat :=
  ((List.range' 9 8).map fun hour => [hour * 60, hour * 60 + 30]).flatten

/-- The route's `isBooked` test for one slot: some appointment of the loaded
schedule satisfies `!(slotEnd <= aptStart || slotStart >= aptEnd)` with the
30-minute slot interval. -/
def slotIsBooked (existing : List Appt) (slotTime : Nat) : Bool :=
  existing.any fun apt =>
    !(decide (slotTime + 30 ≤ apt.time) || decide (apt.time + apt.duration ≤ slotTime))

/-- The slot list the route answers: each grid time with its availability. -/
def availableSlotsRoute (db : List Appt) (doctor_id date : Nat) : List (Nat × Bool) :=
  slotTimes.map fun t => (t, !(slotIsBooked (getAvailableSlots db doctor_id date) t))

/-- A slot is booked exactly when a non-cancelled appointment of the doctor
and date strictly overlaps its 30-minute interval. -/
theorem slotIsBooked_iff (db : List Appt) (doctor_id date t : Nat) :
    slotIsBooked (getAvailableSlots db doctor_id date) t = true ↔
      ∃ a ∈ db, a.doctorId = doctor_id ∧ a.date = date ∧ a.status ≠ Status.cancelled ∧
        overlapsStrict t 30 a.time a.duration = true := by
  simp only [slotIsBooked, getAvailableSlots, List.any_eq_true, List.mem_filter,
    Bool.and_eq_true, beq_iff_eq, bne_iff_ne, ne_eq, Bool.not_eq_true',
    Bool.or_eq_false_iff, decide_eq_false_iff_not, Nat.not_le, overlapsStrict,
    decide_eq_true_eq]
  constructor
  · intro h
    obtain ⟨a, hmem, h1, h2⟩ := h
    obtain ⟨ha, hc⟩ := hmem
    exact ⟨a, ha, hc.1.1, hc.1.2, hc.2, h2, h1⟩
  · intro h
    obtain ⟨a, ha, hdoc, hdate, hst, h2, h1⟩ := h
    exact ⟨a, ⟨ha, ⟨hdoc, hdate⟩, hst⟩, h1, h2⟩

/-- C8: for every table, doctor and date, the slot route returns exactly the
grid 09:00, 09:30, ..., 16:30 in ascending order, and a slot is unavailable
if and only if its 30-minute half-open interval overlaps some non-cancelled
appointment of that doctor on that date — partial coverage included, since
the test is interval overlap, not containment. -/
theorem C8_slot_generator_grid_and_booked_iff (db : List Appt) (doctor_id date : Nat) :
    (availableSlotsRoute db doctor_id date).map Prod.fst =
      [540, 570, 600, 630, 660, 690, 720, 750, 780, 810, 840, 870, 900, 930, 960, 990] ∧
    ∀ t b, (t, b) ∈ availableSlotsRoute db doctor_id date →
      (b = false ↔ ∃ a ∈ db, a.doctorId = doctor_id ∧ a.date = date ∧
        a.status ≠ Status.cancelled ∧ overlapsStrict t 30 a.time a.duration = true) := by
  refine ⟨rfl, ?_⟩
  intro t b hmem
  simp only [availableSlotsRoute, List.mem_map] at hmem
  obtain ⟨x, _, hxeq⟩ := hmem
  cases hxeq
  rw [Bool.not_eq_false']
  exact slotIsBooked_iff db doctor_id date t

/-- C8 witness: with one scheduled 09:10-09:20 appointment the grid is as
stated and the 09:00 slot, only partially covered, is reported unavailable. -/
theorem C8_witness :
    (540, false) ∈ availableSlotsRoute [apptContained] 1 20990102 ∧
    (availableSlotsRoute [apptContained] 1 20990102).map Prod.fst =
      [540, 570, 600, 630, 660, 690, 720, 750, 780, 810, 840, 870, 900, 930, 960, 990] ∧
    (false = false ↔ ∃ a ∈ [apptContained], a.doctorId = 1 ∧ a.date = 20990102 ∧
      a.status ≠ Status.cancelled ∧ overlapsStrict 540 30 a.time a.duration = true) := by
  refine ⟨by decide, (C8_slot_generator_grid_and_booked_iff [apptContained] 1 20990102).1,
    (C8_slot_generator_grid_and_booked_iff [apptContained] 1 20990102).2 540 false
      (by decide)⟩

/-- A back-to-back row — ending exactly at the candidate's start or starting
exactly at its end — never satisfies the conflict condition of
`checkOverlap` / `check_appointment_conflict`, for any positive candidate
duration. -/
theorem rowConflict_back_to_back (aTime aDur cTime cDur : Nat) (hdur : 0 < cDur)
    (h : aTime + aDur = cTime ∨ aTime = cTime + cDur) :
    rowConflict aTime aDur cTime cDur = false := by
  simp only [rowConflict, Bool.or_eq_false_iff, Bool.and_eq_false_iff,
    decide_eq_false_iff_not, Nat.not_le, Nat.not_lt]
  omega

/-- A booking request for doctor 1 on 2099-01-02 at 09:30 for 30 minutes. -/
def reqBook0930 : RawBookingRequest :=
  { patient_id := 1, doctor_id := 1, appointment_date := "2099-01-02",
    appointment_time := "09:30", duration_minutes := some 30, notes := "" }

/-- C9: an existing appointment whose interval ends exactly at the
candidate's start, or starts exactly at the candidate's end, is never
reported as a conflict by either conflict check (for any positive candidate
duration, the range guaranteed by the spec's upstream validation); and the
concrete pair of bookings 09:00+30min then 09:30+30min for the same doctor
and date both succeed end to end. -/
theorem C9_back_to_back_bookings_succeed (db : List Appt)
    (doctor_id date cTime cDur : Nat) (ex : Option Nat) (hdur : 0 < cDur)
    (hadj : ∀ a ∈ db, a.time + a.duration = cTime ∨ a.time = cTime + cDur) :
    checkOverlap db doctor_id date cTime cDur ex = false ∧
    check_appointment_conflict db doctor_id date cTime cDur ex = false ∧
    (bookAppointment [1] [1] [] 0 alwaysFuture reqBook0900 1).1.isCreated = true ∧
    (bookAppointment [1] [1]
        (bookAppointment [1] [1] [] 0 alwaysFuture reqBook0900 1).2 0 alwaysFuture
        reqBook0930 2).1.isCreated = true := by
  refine ⟨?_, ?_, by decide, by decide⟩
  · simp only [checkOverlap, decide_eq_false_iff_not, Nat.not_lt, Nat.le_zero,
      List.countP_eq_zero]
    intro a ha hpred
    rw [rowConflict_back_to_back a.time a.duration cTime cDur hdur (hadj a ha)] at hpred
    simp at hpred
  · simp only [check_appointment_conflict, decide_eq_false_iff_not, Nat.not_lt, Nat.le_zero,
      List.countP_eq_zero]
    intro a ha hpred
    rw [rowConflict_back_to_back a.time a.duration cTime cDur hdur (hadj a ha)] at hpred
    simp at hpred

/-- C9 witness: a concrete schedule of two back-to-back neighbours of the
09:00+30min candidate — one ending 09:00, one starting 09:30 — applied to
the theorem. -/
theorem C9_witness :
    checkOverlap
      [{ id := 1, patientId := 1, doctorId := 1, date := 7, time := 510, duration := 30,
         status := Status.scheduled, notes := "" },
       { id := 2, patientId := 2, doctorId := 1, date := 7, time := 570, duration := 45,
         status := Status.scheduled, notes := "" }] 1 7 540 30 none = false := by
  exact (C9_back_to_back_bookings_succeed
    [{ id := 1, patientId := 1, doctorId := 1, date := 7, time := 510, duration := 30,
       status := Status.scheduled, notes := "" },
     { id := 2, patientId := 2, doctorId := 1, date := 7, time := 570, duration := 45,
       status := Status.scheduled, notes := "" }] 1 7 540 30 none (by decide)
    (by decide)).1

/-- C10: a booking request without `duration_minutes` is not rejected; the
route's destructuring default substitutes 30 before validation and
persistence, so a created appointment carries duration 30 — and
`Appointment.create`'s own default parameter substitutes 30 likewise. -/
theorem C10_omitted_duration_defaults_to_30 (patients doctors : List Nat) (db : List Appt)
    (now : Nat) (jd : String → Bool) (req : RawBookingRequest) (newId : Nat)
    (a : Appt) (db2 : List Appt)
    (hnone : req.duration_minutes = none)
    (hres : bookAppointment patients doctors db now jd req newId = (.created a, db2)) :
    a.duration = 30 ∧
    ∀ i p d dt t st no, (appointmentCreateRow i p d dt t none st no).duration = 30 := by
  refine ⟨?_, fun i p d dt t st no => rfl⟩
  simp only [bookAppointment, hnone, Option.getD_none, lengthProperty, jsUndefGt] at hres
  split at hres
  · simp at hres
  · split at hres
    · simp at hres
    · split at hres
      · simp at hres
      · split at hres
        · split at hres
          · simp at hres
          · split at hres
            · simp at hres
            · simp only [Prod.mk.injEq, BookingOutcome.created.injEq] at hres
              rw [← hres.1]
              rfl
        · simp at hres

/-- A booking request omitting `duration_minutes`. -/
def reqNoDuration : RawBookingRequest :=
  { patient_id := 1, doctor_id := 1, appointment_date := "2099-01-02",
    appointment_time := "09:00", duration_minutes := none, notes := "" }

/-- The row the duration-less booking below creates. -/
def rowDefault30 : Appt :=
  { id := 5, patientId := 1, doctorId := 1, date := 20990102, time := 540,
    duration := 30, status := Status.scheduled, notes := "" }

/-- C10 witness: booking with the duration field absent creates the
appointment with duration 30. -/
theorem C10_witness :
    reqNoDuration.duration_minutes = none ∧
    bookAppointment [1] [1] [] 0 alwaysFuture reqNoDuration 5 =
      (BookingOutcome.created rowDefault30, [rowDefault30]) ∧
    rowDefault30.duration = 30 := by
  refine ⟨rfl, by decide, ?_⟩
  exact (C10_omitted_duration_defaults_to_30 [1] [1] [] 0 alwaysFuture reqNoDuration 5
    rowDefault30 [rowDefault30] rfl (by decide)).1
